import Mathlib

/-!
# led_server.c : URI-to-path resolution and request dispatch

A shallow embedding of `led_blink_webserver/main/led_server.c`.

* A `char *` is modelled by the bytes of the memory object from the pointed-to
  address onwards (`List Char`); the C string stored there is the part before
  the first NUL byte (`cstr`).
* `size_t` is the 32-bit unsigned type of the ESP32 targets; sums that the
  source computes in `size_t` are reduced modulo `SIZE_T`.
* The vendor HTTP engine, the filesystem and the GPIO driver are external: each
  call to them is recorded as an `Event` in the `World` and the results of
  `stat`, `opendir`, `calloc` and `httpd_start` are taken from an environment.
-/

set_option autoImplicit false

namespace LedServer

/-! ## C strings -/

/-- The NUL byte that terminates a C string. -/
def NUL : Char := Char.ofNat 0

/-- Number of values of the 32-bit `size_t`. -/
def SIZE_T : Nat := 2 ^ 32

/-- The C string stored at the start of memory `m`: the bytes before the first NUL. -/
def cstr (m : List Char) : List Char := m.takeWhile (fun c => c != NUL)

/-- `strlen(s)`. -/
def strlen (s : List Char) : Nat := (cstr s).length

/-- `strchr(s, c)`: offset of the first occurrence of `c` in the string at `s`
(the terminator counts as part of the string), `none` for a NULL result. -/
def strchr : List Char → Char → Option Nat
  | [], c => if c = NUL then some 0 else none
  | x :: xs, c =>
    if x = c then some 0
    else if x = NUL then none
    else (strchr xs c).map (fun i => i + 1)

/-- `strcmp(a, b)`; only the sign of the result is meaningful. -/
def strcmp : List Char → List Char → Int
  | [], [] => 0
  | [], y :: _ => if y = NUL then 0 else -1
  | x :: _, [] => if x = NUL then 0 else 1
  | x :: xs, y :: ys =>
    if x = y then (if x = NUL then 0 else strcmp xs ys)
    else (x.toNat : Int) - (y.toNat : Int)

/-- Store `bytes` at the start of the memory `m`. -/
def store (m : List Char) (bytes : List Char) : List Char :=
  bytes ++ m.drop bytes.length

/-- `strcpy(dest, src)`: the memory at `dest` afterwards. -/
def strcpy (dest src : List Char) : List Char :=
  store dest (cstr src ++ [NUL])

/-- `strlcpy(dst, src, size)`: the return value `strlen(src)` and the memory at
`dst` afterwards (at most `size - 1` bytes are copied and a NUL is appended,
nothing is written when `size` is 0). -/
def strlcpy (dst src : List Char) (size : Nat) : Nat × List Char :=
  if size = 0 then (strlen src, dst)
  else (strlen src, store dst ((cstr src).take (size - 1) ++ [NUL]))

/-- Reinterpretation of an integer as a 32-bit signed value (`ssize_t`,
`ptrdiff_t`). -/
def to_int32 (i : Int) : Int := (i + 2 ^ 31) % 2 ^ 32 - 2 ^ 31

/-- The `MIN` macro of `sys/param.h`. -/
def MIN (a b : Nat) : Nat := if a < b then a else b

/-! ## Path resolver -/

/-- `get_path_from_uri(dest, base_path, uri, destsize)`: the returned pointer as
an offset into `dest` (`none` for NULL) and the contents of `dest` afterwards. -/
def get_path_from_uri (dest base_path uri : List Char) (destsize : Nat) :
    Option Nat × List Char :=
  let base_pathlen := strlen base_path
  let pathlen := strlen uri
  let pathlen := match strchr uri '?' with
    | some quest => MIN pathlen quest
    | none => pathlen
  let pathlen := match strchr uri '#' with
    | some hash => MIN pathlen hash
    | none => pathlen
  if (base_pathlen + pathlen + 1) % SIZE_T > destsize then
    (none, dest)
  else
    let dest := strcpy dest base_path
    let dest := dest.take base_pathlen ++
      (strlcpy (dest.drop base_pathlen) uri ((pathlen + 1) % SIZE_T)).2
    (some base_pathlen, dest)

/-- The path portion of a URI in the words of the specification: the longest
leading part that contains neither `?` nor `#`. -/
def spec_path_portion (uri : List Char) : List Char :=
  uri.takeWhile (fun c => c != '?' && c != '#')

/-! ## External collaborators -/

/-- The `esp_err_t` codes used by the source. -/
inductive esp_err_t
  | ESP_OK
  | ESP_FAIL
  | ESP_ERR_NO_MEM
  | ESP_ERR_INVALID_ARG
  | ESP_ERR_INVALID_STATE
  deriving DecidableEq, Repr

/-- The `httpd_err_code_t` values used by the source. -/
inductive httpd_err_code_t
  | HTTPD_500_INTERNAL_SERVER_ERROR
  | HTTPD_404_NOT_FOUND
  deriving DecidableEq, Repr

/-- One call into the HTTP engine, the filesystem, the GPIO driver or the log,
with the data handed over (strings by content). -/
inductive Event
  | httpd_resp_set_status (status : String)
  | httpd_resp_set_hdr (field value : String)
  | httpd_resp_set_type (type : String)
  | httpd_resp_send (body : List Char)
  | httpd_resp_send_chunk (chunk : List Char)
  | httpd_resp_send_err (error : httpd_err_code_t) (msg : String)
  | opendir (name : List Char)
  | stat (path : List Char)
  | gpio_set_level (gpio_num level : Nat)
  | ESP_LOGE (tag format : String) (arg : List Char)
  deriving DecidableEq, Repr

/-- Everything a handler can change outside its own locals: the level of each
GPIO output and the calls made so far. -/
structure World where
  gpio : Nat → Nat
  trace : List Event

/-- What the build and the platform provide: the two configuration constants
behind `FILE_PATH_MAX`, the three embedded byte ranges (`*_start` up to
`*_end`), the state of the filesystem as seen by `stat` and `opendir`, and the
bytes found in an uninitialised stack array. -/
structure Env where
  ESP_VFS_PATH_MAX : Nat
  CONFIG_SPIFFS_OBJ_NAME_LEN : Nat
  index_on_html : List Char
  index_off_html : List Char
  style_css : List Char
  stat_ok : List Char → Bool
  opendir_ok : List Char → Bool
  uninit : Nat → Char

/-- `FILE_PATH_MAX`. -/
def FILE_PATH_MAX (env : Env) : Nat := env.ESP_VFS_PATH_MAX + env.CONFIG_SPIFFS_OBJ_NAME_LEN

/-- The output pin, ` BLINK_GPIO`. -/
def BLINK_GPIO : Nat := 27

/-- `TAG`. -/
def TAG : String := "led_server"

/-- `HTTPD_RESP_USE_STRLEN`. -/
def HTTPD_RESP_USE_STRLEN : Int := -1

/-- `struct file_server_data`. -/
structure file_server_data where
  base_path : List Char
  scratch : List Char

/-- The fields of `httpd_req_t` the handlers read; `user_ctx` is NULL for the
LED handlers. -/
structure httpd_req_t where
  uri : List Char
  user_ctx : Option file_server_data

/-- Append one call to the trace. -/
def World.emit (w : World) (e : Event) : World :=
  { w with trace := w.trace ++ [e] }

/-- The bytes the engine takes from `buf` for a length argument `buf_len`
(`HTTPD_RESP_USE_STRLEN` means the C string at `buf`; a NULL `buf` has none). -/
def resp_bytes (buf : Option (List Char)) (buf_len : Int) : List Char :=
  match buf with
  | none => []
  | some b => if buf_len = HTTPD_RESP_USE_STRLEN then cstr b else b.take buf_len.toNat

/-- `httpd_resp_send(req, buf, buf_len)`: a complete response with that body. -/
def httpd_resp_send (w : World) (buf : Option (List Char)) (buf_len : Int) : World :=
  w.emit (Event.httpd_resp_send (resp_bytes buf buf_len))

/-- `httpd_resp_send_chunk(req, buf, buf_len)`: one chunk; a chunk of length 0
completes the response. -/
def httpd_resp_send_chunk (w : World) (buf : Option (List Char)) (buf_len : Int) : World :=
  w.emit (Event.httpd_resp_send_chunk (resp_bytes buf buf_len))

/-- `httpd_resp_sendstr_chunk(req, str)`, the inline wrapper of
`esp_http_server.h`. -/
def httpd_resp_sendstr_chunk (w : World) (str : Option (List Char)) : World :=
  httpd_resp_send_chunk w str (if str.isSome then HTTPD_RESP_USE_STRLEN else 0)

/-- `gpio_set_level(gpio_num, level)`. -/
def gpio_set_level (w : World) (gpio_num level : Nat) : World :=
  { gpio := fun n => if n = gpio_num then level else w.gpio n,
    trace := w.trace ++ [Event.gpio_set_level gpio_num level] }

/-! ## Handlers -/

/-- An uninitialised `char[FILE_PATH_MAX]` on the stack. -/
def stack_array (env : Env) : List Char := (List.range (FILE_PATH_MAX env)).map env.uninit

/-- `index_off_html_get_handler`. -/
def index_off_html_get_handler (_req : httpd_req_t) (w : World) : esp_err_t × World :=
  let w := w.emit (Event.httpd_resp_set_status "307 Temporary Redirect")
  let w := w.emit (Event.httpd_resp_set_hdr "Location" "/")
  let w := httpd_resp_send w none 0
  (esp_err_t.ESP_OK, w)

/-- `index_on_html_get_handler`. -/
def index_on_html_get_handler (_req : httpd_req_t) (w : World) : esp_err_t × World :=
  let w := w.emit (Event.httpd_resp_set_status "307 Temporary Redirect")
  let w := w.emit (Event.httpd_resp_set_hdr "Location" "/")
  let w := httpd_resp_send w none 0
  (esp_err_t.ESP_OK, w)

/-- `style_css_get_handler`; the length argument is
`(style_css_end-1) - style_css_start`. -/
def style_css_get_handler (env : Env) (_req : httpd_req_t) (w : World) : esp_err_t × World :=
  let style_css_start : Int := 0
  let style_css_end : Int := env.style_css.length
  let w := w.emit (Event.httpd_resp_set_type "text/css")
  let w := httpd_resp_send w (some env.style_css) (to_int32 ((style_css_end - 1) - style_css_start))
  (esp_err_t.ESP_OK, w)

/-- The literal every chunked page starts with. -/
def HTML_OPEN : List Char := "<!DOCTYPE html><html><body>".toList

/-- `http_resp_dir_html(req, dirpath)`. -/
def http_resp_dir_html (env : Env) (_req : httpd_req_t) (w : World) (dirpath : List Char) :
    esp_err_t × World :=
  let entrypath := stack_array env
  let dir := env.opendir_ok (cstr dirpath)
  let w := w.emit (Event.opendir (cstr dirpath))
  let _entrypath := (strlcpy entrypath dirpath (FILE_PATH_MAX env)).2
  if !dir then
    let w := w.emit (Event.ESP_LOGE TAG "Failed to stat dir : %s" (cstr dirpath))
    let w := w.emit (Event.httpd_resp_send_err httpd_err_code_t.HTTPD_404_NOT_FOUND
      "Directory does not exist")
    (esp_err_t.ESP_FAIL, w)
  else
    let w := httpd_resp_sendstr_chunk w (some HTML_OPEN)
    let index_off_size := env.index_off_html.length % SIZE_T
    let w := httpd_resp_send_chunk w (some env.index_off_html) (to_int32 index_off_size)
    let w := httpd_resp_sendstr_chunk w none
    (esp_err_t.ESP_OK, w)

/-- `start_handler(req)`. The byte compared with `/` is
`filename[strlen(filename) - 1]`, the byte of `filepath` at offset
`base_pathlen + strlen(filename) - 1`; for an empty `filename` that is the last
byte of the base path. The result is `none` when this read falls outside the
`filepath` array (undefined behaviour) or the handler is called without a context. -/
def start_handler (env : Env) (req : httpd_req_t) (w : World) : Option (esp_err_t × World) :=
  match req.user_ctx with
  | none => none
  | some ctx =>
    let filepath := stack_array env
    match get_path_from_uri filepath ctx.base_path req.uri (FILE_PATH_MAX env) with
    | (none, _) =>
      let w := w.emit (Event.ESP_LOGE TAG "Filename is too long" [])
      let w := w.emit (Event.httpd_resp_send_err
        httpd_err_code_t.HTTPD_500_INTERNAL_SERVER_ERROR "Filename too long")
      some (esp_err_t.ESP_FAIL, w)
    | (some off, filepath) =>
      let filename := filepath.drop off
      if off + strlen filename = 0 then none
      else
        match filepath[off + strlen filename - 1]? with
        | none => none
        | some last =>
          if last = '/' then
            some (http_resp_dir_html env req w filepath)
          else
            let found := env.stat_ok (cstr filepath)
            let w := w.emit (Event.stat (cstr filepath))
            if !found then
              if strcmp filename "/index_on.html".toList = 0 then
                some (index_on_html_get_handler req w)
              else if strcmp filename "/index_off.html".toList = 0 then
                some (index_off_html_get_handler req w)
              else if strcmp filename "/style.css".toList = 0 then
                some (style_css_get_handler env req w)
              else
                let w := w.emit (Event.ESP_LOGE TAG "Failed to stat file : %s" (cstr filepath))
                let w := w.emit (Event.httpd_resp_send_err
                  httpd_err_code_t.HTTPD_404_NOT_FOUND "File does not exist")
                some (esp_err_t.ESP_FAIL, w)
            else
              some (esp_err_t.ESP_OK, w)

/-- `led_on_handler(req)`. -/
def led_on_handler (env : Env) (_req : httpd_req_t) (w : World) : esp_err_t × World :=
  let w := httpd_resp_sendstr_chunk w (some HTML_OPEN)
  let index_on_size := env.index_on_html.length % SIZE_T
  let w := httpd_resp_send_chunk w (some env.index_on_html) (to_int32 index_on_size)
  let w := gpio_set_level w BLINK_GPIO 1
  let w := w.emit (Event.ESP_LOGE TAG "Led is ON" [])
  (esp_err_t.ESP_OK, w)

/-- `led_off_handler(req)`. -/
def led_off_handler (env : Env) (_req : httpd_req_t) (w : World) : esp_err_t × World :=
  let w := httpd_resp_sendstr_chunk w (some HTML_OPEN)
  let index_off_size := env.index_off_html.length % SIZE_T
  let w := httpd_resp_send_chunk w (some env.index_off_html) (to_int32 index_off_size)
  let w := gpio_set_level w BLINK_GPIO 0
  let w := w.emit (Event.ESP_LOGE TAG "Led is OFF" [])
  (esp_err_t.ESP_OK, w)

/-! ## Server start -/

/-- The handler functions registered with the HTTP engine. -/
inductive Handler
  | led_on_handler
  | led_off_handler
  | start_handler
  deriving DecidableEq, Repr

/-- `httpd_uri_t` (all registrations use `HTTP_GET`). -/
structure httpd_uri_t where
  uri : String
  handler : Handler
  user_ctx : Option file_server_data

/-- State that outlives a call of `start_file_server`: the function-static
pointer `server_data` (`none` is NULL), the number of `file_server_data` objects
obtained from `calloc` so far, the number of HTTP servers started and the URI
handlers registered. -/
structure ServerState where
  server_data : Option file_server_data
  contexts_allocated : Nat
  servers_started : Nat
  registered : List httpd_uri_t

/-- The state at boot. -/
def ServerState.boot : ServerState :=
  { server_data := none, contexts_allocated := 0, servers_started := 0, registered := [] }

/-- The outcome of the two external calls of one `start_file_server` call. -/
structure StartOracle where
  calloc_ok : Bool
  httpd_start_ok : Bool

/-- `SCRATCH_BUFSIZE`. -/
def SCRATCH_BUFSIZE : Nat := 8192

/-- `start_file_server(base_path)`; `base_path = none` is a NULL argument. -/
def start_file_server (env : Env) (base_path : Option (List Char)) (o : StartOracle)
    (s : ServerState) : esp_err_t × ServerState :=
  if base_path.isNone || strcmp (base_path.getD []) "/spiffs".toList != 0 then
    (esp_err_t.ESP_ERR_INVALID_ARG, s)
  else if s.server_data.isSome then
    (esp_err_t.ESP_ERR_INVALID_STATE, s)
  else if !o.calloc_ok then
    (esp_err_t.ESP_ERR_NO_MEM, { s with server_data := none })
  else
    let data : file_server_data :=
      { base_path := (strlcpy (List.replicate (env.ESP_VFS_PATH_MAX + 1) NUL)
          (base_path.getD []) (env.ESP_VFS_PATH_MAX + 1)).2,
        scratch := List.replicate SCRATCH_BUFSIZE NUL }
    let s := { s with server_data := some data,
                      contexts_allocated := s.contexts_allocated + 1 }
    if !o.httpd_start_ok then
      (esp_err_t.ESP_FAIL, s)
    else
      let s := { s with servers_started := s.servers_started + 1 }
      let led_on : httpd_uri_t :=
        { uri := "/on", handler := Handler.led_on_handler, user_ctx := none }
      let s := { s with registered := s.registered ++ [led_on] }
      let led_off : httpd_uri_t :=
        { uri := "/off", handler := Handler.led_off_handler, user_ctx := none }
      let s := { s with registered := s.registered ++ [led_off] }
      let start : httpd_uri_t :=
        { uri := "/*", handler := Handler.start_handler, user_ctx := some data }
      let s := { s with registered := s.registered ++ [start] }
      (esp_err_t.ESP_OK, s)

/-- A sequence of `start_file_server` calls, each with its argument and the
outcome of its external calls: the codes returned, in order, and the final state. -/
def start_calls (env : Env) :
    List (Option (List Char) × StartOracle) → ServerState → List esp_err_t × ServerState
  | [], s => ([], s)
  | (base_path, o) :: rest, s =>
    let r := start_file_server env base_path o s
    let rs := start_calls env rest r.2
    (r.1 :: rs.1, rs.2)

/-! ## Reading a trace -/

/-- The calls made between world `w` and the later world `w1`. -/
def emitted (w w1 : World) : List Event := w1.trace.drop w.trace.length

/-- The chunks handed to `httpd_resp_send_chunk`, in order. -/
def chunks_sent : List Event → List (List Char)
  | [] => []
  | Event.httpd_resp_send_chunk c :: es => c :: chunks_sent es
  | _ :: es => chunks_sent es

/-- The body of a chunked response: all chunks sent, concatenated. -/
def chunked_body (es : List Event) : List Char := (chunks_sent es).flatten

/-- Does this call complete an HTTP response?  `httpd_resp_send` and
`httpd_resp_send_err` send a whole response; a chunked response is complete
with its empty chunk. -/
def completes_response : Event → Bool
  | Event.httpd_resp_send _ => true
  | Event.httpd_resp_send_err _ _ => true
  | Event.httpd_resp_send_chunk c => c.isEmpty
  | _ => false

/-- Number of complete HTTP responses in a trace. -/
def responses_completed (es : List Event) : Nat := es.countP completes_response

/-- The filesystem calls in a trace. -/
def is_fs_call : Event → Bool
  | Event.opendir _ => true
  | Event.stat _ => true
  | _ => false

/-! ## Definitions used in the proofs -/

/-- The length computed by the first half of `get_path_from_uri`. -/
def uri_pathlen (uri : List Char) : Nat :=
  let pathlen := strlen uri
  let pathlen := match strchr uri '?' with
    | some quest => MIN pathlen quest
    | none => pathlen
  let pathlen := match strchr uri '#' with
    | some hash => MIN pathlen hash
    | none => pathlen
  pathlen

/-- The wildcard handler once the path has been resolved: `full` is the resolved
path, `pp` the path portion and `last` the byte the handler inspects. -/
def dispatch (env : Env) (req : httpd_req_t) (w : World) (full pp : List Char) (last : Char) :
    esp_err_t × World :=
  if last = '/' then
    http_resp_dir_html env req w full
  else
    let w1 := w.emit (Event.stat full)
    if env.stat_ok full then (esp_err_t.ESP_OK, w1)
    else if pp = "/index_on.html".toList then index_on_html_get_handler req w1
    else if pp = "/index_off.html".toList then index_off_html_get_handler req w1
    else if pp = "/style.css".toList then style_css_get_handler env req w1
    else
      (esp_err_t.ESP_FAIL,
        (w1.emit (Event.ESP_LOGE TAG "Failed to stat file : %s" full)).emit
          (Event.httpd_resp_send_err httpd_err_code_t.HTTPD_404_NOT_FOUND "File does not exist"))

/-- Is the argument a non-NULL string equal to `/spiffs`? -/
def is_spiffs (base_path : Option (List Char)) : Bool :=
  match base_path with
  | some b => cstr b == "/spiffs".toList
  | none => false

/-- Contexts allocated so far: none while `server_data` is NULL, one after. -/
def alloc_inv (s : ServerState) : Prop :=
  s.contexts_allocated ≤ 1 ∧ (s.server_data = none → s.contexts_allocated = 0)

/-! ## Concrete inputs -/

/-- A build with the ESP-IDF default constants, small embedded pages, an empty
filesystem whose root directory can be opened. -/
def example_env : Env :=
  { ESP_VFS_PATH_MAX := 15, CONFIG_SPIFFS_OBJ_NAME_LEN := 32,
    index_on_html := "<h1>ON</h1>".toList, index_off_html := "<h1>OFF</h1>".toList,
    style_css := "a\x7b\x7d".toList,
    stat_ok := fun _ => false,
    opendir_ok := fun p => p == "/spiffs/".toList,
    uninit := fun _ => 'x' }

/-- The same build with `/spiffs/foo.txt` stored on the filesystem. -/
def example_env_with_file : Env :=
  { example_env with stat_ok := fun p => p == "/spiffs/foo.txt".toList }

/-- The context `start_file_server` creates in that build. -/
def example_ctx : file_server_data :=
  { base_path := "/spiffs".toList ++ List.replicate 9 NUL,
    scratch := List.replicate SCRATCH_BUFSIZE NUL }

/-- A request for `uri` as the wildcard handler receives it. -/
def example_req (uri : String) : httpd_req_t :=
  { uri := uri.toList, user_ctx := some example_ctx }

/-- A request for `uri` as the LED handlers receive it. -/
def example_led_req (uri : String) : httpd_req_t :=
  { uri := uri.toList, user_ctx := none }

/-- A world with all outputs low and nothing sent yet. -/
def example_world : World := { gpio := fun _ => 0, trace := [] }

/-! ## Lemmas on C strings -/

theorem NUL_not_mem_cstr (m : List Char) : NUL ∉ cstr m := by
  intro h
  have := List.mem_takeWhile_imp h
  simp at this

theorem cstr_append_NUL (a rest : List Char) (h : NUL ∉ a) : cstr (a ++ NUL :: rest) = a := by
  induction a with
  | nil => simp [cstr]
  | cons x xs ih =>
    have hx : x ≠ NUL := fun e => h (by simp [e])
    have hxs : NUL ∉ xs := fun e => h (by simp [e])
    simp only [cstr, List.cons_append] at ih ⊢
    rw [List.takeWhile_cons]
    simp [hx, ih hxs]

theorem cstr_nil : cstr [] = [] := rfl

theorem cstr_cons_NUL (xs : List Char) : cstr (NUL :: xs) = [] := by
  simp [cstr]

theorem cstr_cons_ne (x : Char) (xs : List Char) (h : x ≠ NUL) :
    cstr (x :: xs) = x :: cstr xs := by
  simp [cstr, List.takeWhile_cons, h]

theorem strlen_cons_NUL (xs : List Char) : strlen (NUL :: xs) = 0 := by
  simp [strlen, cstr_cons_NUL]

theorem strlen_cons_ne (x : Char) (xs : List Char) (h : x ≠ NUL) :
    strlen (x :: xs) = strlen xs + 1 := by
  simp [strlen, cstr_cons_ne x xs h]

theorem MIN_succ (a b : Nat) : MIN (a + 1) (b + 1) = MIN a b + 1 := by
  unfold MIN
  by_cases h : a < b <;> simp [h]

theorem MIN_zero_right (a : Nat) : MIN a 0 = 0 := by
  unfold MIN; simp

theorem MIN_zero_left (a : Nat) : MIN 0 a = 0 := by
  unfold MIN
  by_cases h : 0 < a
  · simp [h]
  · simp [h]; omega

theorem uri_pathlen_eq (uri : List Char) :
    uri_pathlen uri = (spec_path_portion (cstr uri)).length := by
  induction uri with
  | nil => simp [uri_pathlen, strlen, cstr, strchr, spec_path_portion, NUL]
  | cons x xs ih =>
    by_cases h0 : x = NUL
    · subst h0
      have h1 : strchr (NUL :: xs) '?' = none := by simp [strchr, NUL]
      have h2 : strchr (NUL :: xs) '#' = none := by simp [strchr, NUL]
      simp [uri_pathlen, h1, h2, strlen_cons_NUL, cstr_cons_NUL, spec_path_portion]
    · by_cases hq : x = '?'
      · subst hq
        have h1 : strchr ('?' :: xs) '?' = some 0 := by simp [strchr]
        simp only [uri_pathlen, h1, MIN_zero_right, cstr_cons_ne _ _ h0, spec_path_portion]
        cases strchr ('?' :: xs) '#' <;> simp [MIN_zero_left]
      · by_cases hh : x = '#'
        · subst hh
          have h2 : strchr ('#' :: xs) '#' = some 0 := by simp [strchr]
          simp only [uri_pathlen, h2, MIN_zero_right, cstr_cons_ne _ _ h0, spec_path_portion]
          simp
        · have h1 : strchr (x :: xs) '?' = (strchr xs '?').map (fun i => i + 1) := by
            simp [strchr, hq, h0]
          have h2 : strchr (x :: xs) '#' = (strchr xs '#').map (fun i => i + 1) := by
            simp [strchr, hh, h0]
          have hsp : spec_path_portion (cstr (x :: xs)) = x :: spec_path_portion (cstr xs) := by
            simp [spec_path_portion, cstr_cons_ne _ _ h0, List.takeWhile_cons, hq, hh]
          rw [hsp, List.length_cons, ← ih]
          simp only [uri_pathlen, h1, h2, strlen_cons_ne _ _ h0]
          cases strchr xs '?' <;> cases strchr xs '#' <;> simp [MIN_succ]

theorem take_length_takeWhile (p : Char → Bool) (l : List Char) :
    l.take (l.takeWhile p).length = l.takeWhile p := by
  induction l with
  | nil => rfl
  | cons x xs ih =>
    rw [List.takeWhile_cons]
    by_cases h : p x = true
    · simp [h, ih]
    · simp [h]

theorem take_uri_pathlen (uri : List Char) :
    (cstr uri).take (uri_pathlen uri) = spec_path_portion (cstr uri) := by
  rw [uri_pathlen_eq]
  exact take_length_takeWhile _ _

theorem spec_path_portion_length_le (s : List Char) :
    (spec_path_portion s).length ≤ s.length := by
  unfold spec_path_portion
  exact (List.takeWhile_sublist _).length_le

theorem NUL_not_mem_spec_path_portion (m : List Char) :
    NUL ∉ spec_path_portion (cstr m) := by
  intro h
  have hsub : (spec_path_portion (cstr m)).Sublist (cstr m) := List.takeWhile_sublist _
  exact NUL_not_mem_cstr m (hsub.subset h)

/-- What `get_path_from_uri` computes when the two strings fit a 32-bit
address space together. -/
theorem get_path_from_uri_eq (dest base_path uri : List Char) (destsize : Nat)
    (h_mem : strlen base_path + strlen uri + 1 < SIZE_T) :
    get_path_from_uri dest base_path uri destsize =
      if strlen base_path + (spec_path_portion (cstr uri)).length + 1 > destsize then
        (none, dest)
      else
        (some (strlen base_path),
          cstr base_path ++ spec_path_portion (cstr uri) ++
            NUL :: dest.drop (strlen base_path + (spec_path_portion (cstr uri)).length + 1)) := by
  have hle : (spec_path_portion (cstr uri)).length ≤ strlen uri :=
    spec_path_portion_length_le _
  have hdef : get_path_from_uri dest base_path uri destsize =
      if (strlen base_path + uri_pathlen uri + 1) % SIZE_T > destsize then (none, dest)
      else (some (strlen base_path),
        (strcpy dest base_path).take (strlen base_path) ++
          (strlcpy ((strcpy dest base_path).drop (strlen base_path)) uri
            ((uri_pathlen uri + 1) % SIZE_T)).2) := rfl
  rw [hdef, uri_pathlen_eq]
  have e1 : (strlen base_path + (spec_path_portion (cstr uri)).length + 1) % SIZE_T
      = strlen base_path + (spec_path_portion (cstr uri)).length + 1 :=
    Nat.mod_eq_of_lt (by omega)
  have e2 : ((spec_path_portion (cstr uri)).length + 1) % SIZE_T
      = (spec_path_portion (cstr uri)).length + 1 :=
    Nat.mod_eq_of_lt (by omega)
  rw [e1, e2]
  split
  · rfl
  · congr 1
    have t1 : (strcpy dest base_path).take (strlen base_path) = cstr base_path := by
      simp [strcpy, store, strlen, List.take_append_eq_append_take]
    have t2 : (strcpy dest base_path).drop (strlen base_path)
        = NUL :: dest.drop (strlen base_path + 1) := by
      simp [strcpy, store, strlen, List.drop_append_eq_append_drop]
    rw [t1, t2]
    have t3 : (cstr uri).take ((spec_path_portion (cstr uri)).length + 1 - 1)
        = spec_path_portion (cstr uri) := by
      rw [Nat.add_sub_cancel, ← uri_pathlen_eq]
      exact take_uri_pathlen uri
    simp only [strlcpy, Nat.succ_ne_zero, if_false, store, t3]
    simp [List.append_assoc, Nat.add_assoc, Nat.add_comm 1]

theorem spec_path_portion_split (s : List Char) :
    ∃ rest, s = spec_path_portion s ++ rest ∧
      (rest = [] ∨ rest.head? = some '?' ∨ rest.head? = some '#') := by
  induction s with
  | nil => exact ⟨[], rfl, Or.inl rfl⟩
  | cons x xs ih =>
    by_cases hq : x = '?'
    · exact ⟨x :: xs, by simp [spec_path_portion, hq], Or.inr (Or.inl (by simp [hq]))⟩
    · by_cases hh : x = '#'
      · exact ⟨x :: xs, by simp [spec_path_portion, hh], Or.inr (Or.inr (by simp [hh]))⟩
      · obtain ⟨rest, h1, h2⟩ := ih
        refine ⟨rest, ?_, h2⟩
        have : spec_path_portion (x :: xs) = x :: spec_path_portion xs := by
          simp [spec_path_portion, List.takeWhile_cons, hq, hh]
        rw [this, List.cons_append, ← h1]

theorem spec_path_portion_no_delim (s : List Char) :
    '?' ∉ spec_path_portion s ∧ '#' ∉ spec_path_portion s := by
  constructor
  · intro h
    have := List.mem_takeWhile_imp h
    simp at this
  · intro h
    have := List.mem_takeWhile_imp h
    simp at this

theorem toNat_sub_ne_zero (x y : Char) (h : x ≠ y) : (x.toNat : Int) - (y.toNat : Int) ≠ 0 := by
  intro e
  apply h
  have e1 : x.toNat = y.toNat := by omega
  rw [← Char.ofNat_toNat x, ← Char.ofNat_toNat y, e1]

theorem strcmp_eq_zero_iff (a b : List Char) : strcmp a b = 0 ↔ cstr a = cstr b := by
  induction a generalizing b with
  | nil =>
    cases b with
    | nil => simp [strcmp]
    | cons y ys =>
      by_cases hy : y = NUL
      · simp [strcmp, hy, cstr_cons_NUL, cstr_nil]
      · simp [strcmp, hy, cstr_cons_ne _ _ hy, cstr_nil]
  | cons x xs ih =>
    cases b with
    | nil =>
      by_cases hx : x = NUL
      · simp [strcmp, hx, cstr_cons_NUL, cstr_nil]
      · simp [strcmp, hx, cstr_cons_ne _ _ hx, cstr_nil]
    | cons y ys =>
      by_cases hxy : x = y
      · subst hxy
        by_cases hx : x = NUL
        · simp [strcmp, hx, cstr_cons_NUL]
        · simp [strcmp, hx, cstr_cons_ne _ _ hx, ih ys]
      · have hne := toNat_sub_ne_zero x y hxy
        simp only [strcmp, hxy, if_false, hne, false_iff]
        by_cases hx : x = NUL
        · have hy : y ≠ NUL := fun e => hxy (hx.trans e.symm)
          simp [hx, cstr_cons_NUL, cstr_cons_ne _ _ hy]
        · by_cases hy : y = NUL
          · simp [hy, cstr_cons_NUL, cstr_cons_ne _ _ hx]
          · simp [cstr_cons_ne _ _ hx, cstr_cons_ne _ _ hy, hxy]

theorem getElem?_pred_length_append (l r : List Char) (h : l ≠ []) :
    (l ++ r)[l.length - 1]? = l.getLast? := by
  have hl : 0 < l.length := List.length_pos.mpr h
  rw [List.getElem?_append_left (by omega), List.getLast?_eq_getElem?]

theorem cstr_of_not_mem (a : List Char) (h : NUL ∉ a) : cstr a = a := by
  induction a with
  | nil => rfl
  | cons x xs ih =>
    have hx : x ≠ NUL := fun e => h (by simp [e])
    have hxs : NUL ∉ xs := fun e => h (by simp [e])
    rw [cstr_cons_ne _ _ hx, ih hxs]

/-! ## Lemmas on the handlers -/

theorem to_int32_of_small (n : Nat) (h : n < 2 ^ 31) : to_int32 (n : Int) = (n : Int) := by
  unfold to_int32
  omega

theorem resp_bytes_some_nat (b : List Char) (n : Nat) :
    resp_bytes (some b) (n : Int) = b.take n := by
  have : ¬ ((n : Int) = HTTPD_RESP_USE_STRLEN) := by
    unfold HTTPD_RESP_USE_STRLEN
    omega
  simp [resp_bytes, this]

theorem resp_bytes_strlen (b : List Char) :
    resp_bytes (some b) HTTPD_RESP_USE_STRLEN = cstr b := by
  simp [resp_bytes]

theorem resp_bytes_none (n : Int) : resp_bytes none n = [] := rfl

/-- The directory listing depends on `dirpath` through its C string only. -/
theorem http_resp_dir_html_eq (env : Env) (req : httpd_req_t) (w : World) (dirpath : List Char)
    (h_small : env.index_off_html.length < 2 ^ 31) :
    http_resp_dir_html env req w dirpath =
      if env.opendir_ok (cstr dirpath) then
        (esp_err_t.ESP_OK, { w with trace := w.trace ++
          [Event.opendir (cstr dirpath),
           Event.httpd_resp_send_chunk HTML_OPEN,
           Event.httpd_resp_send_chunk env.index_off_html,
           Event.httpd_resp_send_chunk []] })
      else
        (esp_err_t.ESP_FAIL, { w with trace := w.trace ++
          [Event.opendir (cstr dirpath),
           Event.ESP_LOGE TAG "Failed to stat dir : %s" (cstr dirpath),
           Event.httpd_resp_send_err httpd_err_code_t.HTTPD_404_NOT_FOUND
             "Directory does not exist"] }) := by
  have hopen : cstr HTML_OPEN = HTML_OPEN := by decide
  have hmod : env.index_off_html.length % SIZE_T = env.index_off_html.length :=
    Nat.mod_eq_of_lt (by unfold SIZE_T; omega)
  unfold http_resp_dir_html
  by_cases hd : env.opendir_ok (cstr dirpath) = true
  · simp [hd, httpd_resp_sendstr_chunk, httpd_resp_send_chunk, World.emit, resp_bytes_some_nat,
      resp_bytes_strlen, resp_bytes_none, hopen, hmod, to_int32_of_small _ h_small]
  · simp [hd, World.emit]

theorem http_resp_dir_html_congr (env : Env) (req : httpd_req_t) (w : World)
    (d1 d2 : List Char) (h : cstr d1 = cstr d2) :
    http_resp_dir_html env req w d1 = http_resp_dir_html env req w d2 := by
  simp [http_resp_dir_html, h]

theorem start_handler_resolved (env : Env) (req : httpd_req_t) (ctx : file_server_data)
    (w : World) (last : Char)
    (h_ctx : req.user_ctx = some ctx)
    (h_mem : strlen ctx.base_path + strlen req.uri + 1 < SIZE_T)
    (h_fit : strlen ctx.base_path + (spec_path_portion (cstr req.uri)).length + 1
      ≤ FILE_PATH_MAX env)
    (h_last : (cstr ctx.base_path ++ spec_path_portion (cstr req.uri)).getLast? = some last) :
    start_handler env req w = some (dispatch env req w
      (cstr ctx.base_path ++ spec_path_portion (cstr req.uri))
      (spec_path_portion (cstr req.uri)) last) := by
  have hne : cstr ctx.base_path ++ spec_path_portion (cstr req.uri) ≠ [] := by
    intro e
    rw [e] at h_last
    simp at h_last
  have hlen : 0 < strlen ctx.base_path + (spec_path_portion (cstr req.uri)).length := by
    have := List.length_pos.mpr hne
    simpa [strlen] using this
  have hn1 : NUL ∉ cstr ctx.base_path ++ spec_path_portion (cstr req.uri) := by
    intro hm
    rcases List.mem_append.mp hm with hm | hm
    · exact NUL_not_mem_cstr _ hm
    · exact NUL_not_mem_spec_path_portion _ hm
  generalize htl : List.drop (strlen ctx.base_path +
    (spec_path_portion (cstr req.uri)).length + 1) (stack_array env) = tl
  have hdrop : (cstr ctx.base_path ++ spec_path_portion (cstr req.uri) ++ NUL :: tl).drop
      (strlen ctx.base_path) = spec_path_portion (cstr req.uri) ++ NUL :: tl := by
    rw [List.append_assoc]
    exact List.drop_left _ _
  have hfull : cstr (cstr ctx.base_path ++ spec_path_portion (cstr req.uri) ++ NUL :: tl)
      = cstr ctx.base_path ++ spec_path_portion (cstr req.uri) := cstr_append_NUL _ _ hn1
  have hname : cstr (spec_path_portion (cstr req.uri) ++ NUL :: tl)
      = spec_path_portion (cstr req.uri) :=
    cstr_append_NUL _ _ (NUL_not_mem_spec_path_portion _)
  have hidx : (cstr ctx.base_path ++ spec_path_portion (cstr req.uri) ++ NUL :: tl)[
      strlen ctx.base_path + (spec_path_portion (cstr req.uri)).length - 1]? = some last := by
    have := getElem?_pred_length_append
      (cstr ctx.base_path ++ spec_path_portion (cstr req.uri)) (NUL :: tl) hne
    rw [List.length_append] at this
    rw [← h_last, ← this]
    rfl
  have hcmp : ∀ lit : List Char, cstr lit = lit →
      (strcmp (spec_path_portion (cstr req.uri) ++ NUL :: tl) lit = 0 ↔
        spec_path_portion (cstr req.uri) = lit) := by
    intro lit hl
    rw [strcmp_eq_zero_iff, hname, hl]
  have l1 : cstr "/index_on.html".toList = "/index_on.html".toList := by decide
  have l2 : cstr "/index_off.html".toList = "/index_off.html".toList := by decide
  have l3 : cstr "/style.css".toList = "/style.css".toList := by decide
  unfold start_handler
  simp only [h_ctx]
  rw [get_path_from_uri_eq _ _ _ _ h_mem, if_neg (by omega), htl]
  simp only [hdrop]
  have hs : strlen (spec_path_portion (cstr req.uri) ++ NUL :: tl)
      = (spec_path_portion (cstr req.uri)).length := by
    unfold strlen
    rw [hname]
  rw [hs, if_neg (by omega), hidx]
  simp only [hfull, hcmp _ l1, hcmp _ l2, hcmp _ l3]
  unfold dispatch
  by_cases hsl : last = '/'
  · simp only [hsl, if_true]
    congr 1
    apply http_resp_dir_html_congr
    rw [hfull, cstr_of_not_mem _ hn1]
  · by_cases hst : env.stat_ok (cstr ctx.base_path ++ spec_path_portion (cstr req.uri)) = true
    · simp [hsl, hst]
    · simp only [hsl, hst, if_false, Bool.not_false, if_true]
      split
      · rfl
      · split
        · rfl
        · split <;> rfl

theorem emitted_append (w : World) (g : Nat → Nat) (l : List Event) :
    emitted w { gpio := g, trace := w.trace ++ l } = l := by
  simp [emitted]

theorem start_handler_too_long_eq (env : Env) (req : httpd_req_t) (ctx : file_server_data)
    (w : World)
    (h_ctx : req.user_ctx = some ctx)
    (h_mem : strlen ctx.base_path + strlen req.uri + 1 < SIZE_T)
    (h_long : strlen ctx.base_path + (spec_path_portion (cstr req.uri)).length + 1
      > FILE_PATH_MAX env) :
    start_handler env req w = some (esp_err_t.ESP_FAIL,
      { w with trace := w.trace ++
        [Event.ESP_LOGE TAG "Filename is too long" [],
         Event.httpd_resp_send_err httpd_err_code_t.HTTPD_500_INTERNAL_SERVER_ERROR
           "Filename too long"] }) := by
  unfold start_handler
  simp only [h_ctx]
  rw [get_path_from_uri_eq _ _ _ _ h_mem, if_pos h_long]
  simp [World.emit]

/-- Responses completed by the part of the handler that follows the resolution:
none when a file is found, one on every other branch. -/
theorem dispatch_responses (env : Env) (req : httpd_req_t) (w : World) (full pp : List Char)
    (last : Char)
    (h_ne : env.index_off_html ≠ [])
    (h_small : env.index_off_html.length < 2 ^ 31) :
    responses_completed (emitted w (dispatch env req w full pp last).2) =
      if last ≠ '/' ∧ env.stat_ok full = true then 0 else 1 := by
  have hopen : HTML_OPEN.isEmpty = false := by decide
  have hoff : env.index_off_html.isEmpty = false := by
    cases h : env.index_off_html with
    | nil => exact absurd h h_ne
    | cons _ _ => rfl
  unfold dispatch
  by_cases hsl : last = '/'
  · rw [if_pos hsl, http_resp_dir_html_eq env req w _ h_small]
    have hc : ¬ (last ≠ '/' ∧ env.stat_ok full = true) := fun h => h.1 hsl
    rw [if_neg hc]
    split
    · rw [emitted_append]
      simp [responses_completed, completes_response, List.countP_cons, hopen, hoff]
    · rw [emitted_append]
      simp [responses_completed, completes_response, List.countP_cons]
  · rw [if_neg hsl]
    by_cases hst : env.stat_ok full = true
    · have hc : last ≠ '/' ∧ env.stat_ok full = true := ⟨hsl, hst⟩
      rw [if_pos hc]
      simp only [hst, if_true]
      simp [World.emit, emitted, responses_completed, completes_response, List.countP_cons]
    · have hc : ¬ (last ≠ '/' ∧ env.stat_ok full = true) := fun h => hst h.2
      have hst1 : env.stat_ok full = false := by simpa using hst
      rw [if_neg hc]
      simp only [hst1, Bool.false_eq_true, if_false]
      by_cases h1 : pp = "/index_on.html".toList
      · rw [if_pos h1]
        simp [index_on_html_get_handler, httpd_resp_send, World.emit, emitted,
          responses_completed, completes_response, List.countP_cons]
      · rw [if_neg h1]
        by_cases h2 : pp = "/index_off.html".toList
        · rw [if_pos h2]
          simp [index_off_html_get_handler, httpd_resp_send, World.emit, emitted,
            responses_completed, completes_response, List.countP_cons]
        · rw [if_neg h2]
          by_cases h3 : pp = "/style.css".toList
          · rw [if_pos h3]
            simp [style_css_get_handler, httpd_resp_send, World.emit, emitted,
              responses_completed, completes_response, List.countP_cons]
          · rw [if_neg h3]
            simp [World.emit, emitted, responses_completed, completes_response,
              List.countP_cons]

/-- Responses completed by `start_handler` on each of its paths: none when the
path fits, does not end in `/` and the file is found; one otherwise. -/
theorem start_handler_response_count (env : Env) (req : httpd_req_t) (ctx : file_server_data)
    (w : World) (last : Char)
    (h_ctx : req.user_ctx = some ctx)
    (h_mem : strlen ctx.base_path + strlen req.uri + 1 < SIZE_T)
    (h_last : (cstr ctx.base_path ++ spec_path_portion (cstr req.uri)).getLast? = some last)
    (h_ne : env.index_off_html ≠ [])
    (h_small : env.index_off_html.length < 2 ^ 31) :
    ∃ r w1, start_handler env req w = some (r, w1) ∧
      responses_completed (emitted w w1) =
        if strlen ctx.base_path + (spec_path_portion (cstr req.uri)).length + 1
            ≤ FILE_PATH_MAX env ∧ last ≠ '/' ∧
            env.stat_ok (cstr ctx.base_path ++ spec_path_portion (cstr req.uri)) = true
        then 0 else 1 := by
  by_cases h_fit : strlen ctx.base_path + (spec_path_portion (cstr req.uri)).length + 1
      ≤ FILE_PATH_MAX env
  · refine ⟨(dispatch env req w (cstr ctx.base_path ++ spec_path_portion (cstr req.uri))
        (spec_path_portion (cstr req.uri)) last).1,
      (dispatch env req w (cstr ctx.base_path ++ spec_path_portion (cstr req.uri))
        (spec_path_portion (cstr req.uri)) last).2,
      start_handler_resolved env req ctx w last h_ctx h_mem h_fit h_last, ?_⟩
    rw [dispatch_responses env req w _ _ last h_ne h_small]
    simp [h_fit]
  · refine ⟨_, _, start_handler_too_long_eq env req ctx w h_ctx h_mem (by omega), ?_⟩
    rw [emitted_append]
    have hc : ¬ (strlen ctx.base_path + (spec_path_portion (cstr req.uri)).length + 1
        ≤ FILE_PATH_MAX env ∧ last ≠ '/' ∧
        env.stat_ok (cstr ctx.base_path ++ spec_path_portion (cstr req.uri)) = true) :=
      fun h => h_fit h.1
    rw [if_neg hc]
    rfl

/-- The base path stored in the context by `start_file_server` is `/spiffs`
whenever the array has room for it. -/
theorem start_file_server_base_path (env : Env) (b : List Char)
    (hb : strcmp b "/spiffs".toList = 0) (hn : 7 ≤ env.ESP_VFS_PATH_MAX) :
    cstr (strlcpy (List.replicate (env.ESP_VFS_PATH_MAX + 1) NUL) b
      (env.ESP_VFS_PATH_MAX + 1)).2 = "/spiffs".toList := by
  have hlit : cstr "/spiffs".toList = "/spiffs".toList := by decide
  have hc : cstr b = "/spiffs".toList := by
    rw [← hlit]
    exact (strcmp_eq_zero_iff _ _).mp hb
  have hnn : NUL ∉ "/spiffs".toList := by decide
  have ht : List.take (env.ESP_VFS_PATH_MAX + 1 - 1) "/spiffs".toList = "/spiffs".toList :=
    List.take_of_length_le (by simpa using hn)
  simp only [strlcpy, Nat.succ_ne_zero, if_false, store, hc, ht]
  rw [List.append_assoc]
  exact cstr_append_NUL _ _ hnn

/-! ## Path resolver: claims -/

/-- C1: whenever `get_path_from_uri` returns non-NULL, the destination buffer
holds the C string `base_path` followed by the URI's path portion, the returned
pointer addresses the C string that is exactly the path portion, and the write
stayed inside the buffer; the path portion is the part of the URI before its
first `?` or `#` (the whole URI if there is none), so nothing from that
character onward is written or returned. -/
theorem get_path_from_uri_success (dest base_path uri : List Char) (destsize off : Nat)
    (dest1 : List Char)
    (h_mem : strlen base_path + strlen uri + 1 < SIZE_T)
    (h_cap : destsize ≤ dest.length)
    (h : get_path_from_uri dest base_path uri destsize = (some off, dest1)) :
    cstr dest1 = cstr base_path ++ spec_path_portion (cstr uri) ∧
    cstr (dest1.drop off) = spec_path_portion (cstr uri) ∧
    dest1.length = dest.length ∧
    (∃ rest, cstr uri = spec_path_portion (cstr uri) ++ rest ∧
      (rest = [] ∨ rest.head? = some '?' ∨ rest.head? = some '#')) ∧
    '?' ∉ spec_path_portion (cstr uri) ∧ '#' ∉ spec_path_portion (cstr uri) := by
  rw [get_path_from_uri_eq dest base_path uri destsize h_mem] at h
  split at h
  · simp at h
  · rename_i hfit
    simp only [Prod.mk.injEq, Option.some.injEq] at h
    obtain ⟨hoff, hd⟩ := h
    subst hoff
    subst hd
    have hn1 : NUL ∉ cstr base_path ++ spec_path_portion (cstr uri) := by
      intro hm
      rcases List.mem_append.mp hm with hm | hm
      · exact NUL_not_mem_cstr _ hm
      · exact NUL_not_mem_spec_path_portion _ hm
    refine ⟨cstr_append_NUL _ _ hn1, ?_, ?_, spec_path_portion_split _,
      (spec_path_portion_no_delim _).1, (spec_path_portion_no_delim _).2⟩
    · have : (cstr base_path ++ spec_path_portion (cstr uri) ++
          NUL :: List.drop (strlen base_path + (spec_path_portion (cstr uri)).length + 1) dest).drop
            (strlen base_path)
          = spec_path_portion (cstr uri) ++
            NUL :: List.drop (strlen base_path + (spec_path_portion (cstr uri)).length + 1) dest := by
        rw [List.append_assoc]
        exact List.drop_left _ _
      rw [this]
      exact cstr_append_NUL _ _ (NUL_not_mem_spec_path_portion _)
    · simp only [List.length_append, List.length_cons, List.length_drop]
      unfold strlen at hfit ⊢
      omega

/-- A resolution that succeeds: base `/spiffs`, URI `/a/b?q#r`, 20 bytes. -/
theorem get_path_from_uri_success_witness :
    cstr (get_path_from_uri (List.replicate 20 'x') "/spiffs".toList "/a/b?q#r".toList 20).2
      = "/spiffs".toList ++ "/a/b".toList ∧
    spec_path_portion (cstr "/a/b?q#r".toList) = "/a/b".toList := by
  have h := get_path_from_uri_success (List.replicate 20 'x') "/spiffs".toList
    "/a/b?q#r".toList 20 7 ("/spiffs/a/b".toList ++ NUL :: List.replicate 8 'x')
    (by decide) (by decide) (by decide)
  have e : (get_path_from_uri (List.replicate 20 'x') "/spiffs".toList "/a/b?q#r".toList 20).2
      = "/spiffs/a/b".toList ++ NUL :: List.replicate 8 'x' := by decide
  have p : spec_path_portion (cstr "/a/b?q#r".toList) = "/a/b".toList := by decide
  rw [e]
  exact ⟨by rw [h.1, p]; decide, p⟩

/-- C2: `get_path_from_uri` returns NULL exactly when
`len(base_path) + len(path portion) + 1 > destsize`, and then the destination
buffer is unchanged. -/
theorem get_path_from_uri_fails_iff (dest base_path uri : List Char) (destsize : Nat)
    (h_mem : strlen base_path + strlen uri + 1 < SIZE_T) :
    ((get_path_from_uri dest base_path uri destsize).1 = none ↔
      strlen base_path + (spec_path_portion (cstr uri)).length + 1 > destsize) ∧
    ((get_path_from_uri dest base_path uri destsize).1 = none →
      (get_path_from_uri dest base_path uri destsize).2 = dest) := by
  rw [get_path_from_uri_eq dest base_path uri destsize h_mem]
  split
  · rename_i hlong
    simp [hlong]
  · rename_i hfit
    simp [hfit]

/-- A resolution that fails: 11 bytes are one too few for `/spiffs/a/b`. -/
theorem get_path_from_uri_fails_iff_witness :
    strlen "/spiffs".toList + strlen "/a/b#q?r".toList + 1 < SIZE_T ∧
    (get_path_from_uri (List.replicate 20 'x') "/spiffs".toList "/a/b#q?r".toList 11).1 = none ∧
    (get_path_from_uri (List.replicate 20 'x') "/spiffs".toList "/a/b#q?r".toList 11).2
      = List.replicate 20 'x' :=
  have h := get_path_from_uri_fails_iff (List.replicate 20 'x') "/spiffs".toList
    "/a/b#q?r".toList 11 (by decide)
  ⟨by decide, h.1.mpr (by decide), h.2 (h.1.mpr (by decide))⟩

/-! ## Wildcard handler: claims -/

/-- C3: a request whose resolved path (base path, path portion, terminator)
exceeds `FILE_PATH_MAX` gets a 500 response and the handler returns `ESP_FAIL`;
the only calls made are the log line and `httpd_resp_send_err`, so neither
`opendir` nor `stat` is called and no page handler runs. -/
theorem start_handler_path_too_long (env : Env) (req : httpd_req_t) (ctx : file_server_data)
    (w : World)
    (h_ctx : req.user_ctx = some ctx)
    (h_mem : strlen ctx.base_path + strlen req.uri + 1 < SIZE_T)
    (h_long : strlen ctx.base_path + (spec_path_portion (cstr req.uri)).length + 1
      > FILE_PATH_MAX env) :
    ∃ w1, start_handler env req w = some (esp_err_t.ESP_FAIL, w1) ∧
      emitted w w1 =
        [Event.ESP_LOGE TAG "Filename is too long" [],
         Event.httpd_resp_send_err httpd_err_code_t.HTTPD_500_INTERNAL_SERVER_ERROR
           "Filename too long"] ∧
      (emitted w w1).any is_fs_call = false ∧
      w1.gpio = w.gpio := by
  refine ⟨{ w with trace := w.trace ++
        [Event.ESP_LOGE TAG "Filename is too long" [],
         Event.httpd_resp_send_err httpd_err_code_t.HTTPD_500_INTERNAL_SERVER_ERROR
           "Filename too long"] }, ?_, ?_, ?_, rfl⟩
  · exact start_handler_too_long_eq env req ctx w h_ctx h_mem h_long
  · exact emitted_append _ _ _
  · rw [emitted_append]
    rfl

/-- A URI of 71 bytes under `/spiffs` does not fit the 47 bytes of the default build. -/
theorem start_handler_path_too_long_witness :
    strlen example_ctx.base_path +
      (spec_path_portion (cstr (example_req
        "/0123456789012345678901234567890123456789012345678901234567890123456789").uri)).length
      + 1 > FILE_PATH_MAX example_env ∧
    ∃ w1, start_handler example_env
      (example_req "/0123456789012345678901234567890123456789012345678901234567890123456789")
      example_world = some (esp_err_t.ESP_FAIL, w1) ∧
      emitted example_world w1 =
        [Event.ESP_LOGE TAG "Filename is too long" [],
         Event.httpd_resp_send_err httpd_err_code_t.HTTPD_500_INTERNAL_SERVER_ERROR
           "Filename too long"] ∧
      (emitted example_world w1).any is_fs_call = false ∧
      w1.gpio = example_world.gpio :=
  ⟨by decide,
   start_handler_path_too_long example_env
    (example_req "/0123456789012345678901234567890123456789012345678901234567890123456789")
    example_ctx example_world rfl (by decide) (by decide)⟩

/-- C6: when the resolved path fits, the path portion does not end in `/` and is
none of the three hardcoded names, and `stat` fails, the handler sends a
404 response and returns `ESP_FAIL`.  The byte the handler inspects is the last
one of the resolved path, so for an empty path portion the base path must be
non-empty without a trailing `/` (as `/spiffs` is). -/
theorem start_handler_not_found (env : Env) (req : httpd_req_t) (ctx : file_server_data)
    (w : World)
    (h_ctx : req.user_ctx = some ctx)
    (h_mem : strlen ctx.base_path + strlen req.uri + 1 < SIZE_T)
    (h_fit : strlen ctx.base_path + (spec_path_portion (cstr req.uri)).length + 1
      ≤ FILE_PATH_MAX env)
    (h_base : spec_path_portion (cstr req.uri) ≠ [] ∨
      ∃ c, (cstr ctx.base_path).getLast? = some c ∧ c ≠ '/')
    (h_noslash : (spec_path_portion (cstr req.uri)).getLast? ≠ some '/')
    (h_on : spec_path_portion (cstr req.uri) ≠ "/index_on.html".toList)
    (h_off : spec_path_portion (cstr req.uri) ≠ "/index_off.html".toList)
    (h_css : spec_path_portion (cstr req.uri) ≠ "/style.css".toList)
    (h_absent : env.stat_ok (cstr ctx.base_path ++ spec_path_portion (cstr req.uri)) = false) :
    start_handler env req w = some (esp_err_t.ESP_FAIL,
      { w with trace := w.trace ++
        [Event.stat (cstr ctx.base_path ++ spec_path_portion (cstr req.uri)),
         Event.ESP_LOGE TAG "Failed to stat file : %s"
           (cstr ctx.base_path ++ spec_path_portion (cstr req.uri)),
         Event.httpd_resp_send_err httpd_err_code_t.HTTPD_404_NOT_FOUND
           "File does not exist"] }) := by
  have hlast : ∃ last, (cstr ctx.base_path ++ spec_path_portion (cstr req.uri)).getLast?
      = some last ∧ last ≠ '/' := by
    rw [List.getLast?_append]
    cases hp : (spec_path_portion (cstr req.uri)).getLast? with
    | some c =>
      refine ⟨c, rfl, ?_⟩
      intro e
      exact h_noslash (by rw [hp, e])
    | none =>
      rcases h_base with hne | ⟨c, hc, hc2⟩
      · exact absurd (List.getLast?_eq_none_iff.mp hp) hne
      · exact ⟨c, by simpa using hc, hc2⟩
  obtain ⟨last, hl, hl2⟩ := hlast
  rw [start_handler_resolved env req ctx w last h_ctx h_mem h_fit hl]
  unfold dispatch
  simp only [if_neg hl2, h_absent, Bool.false_eq_true, if_false, if_neg h_on, if_neg h_off,
    if_neg h_css]
  simp [World.emit]

/-- The request `GET /nonexistent.file` on an empty filesystem. -/
theorem start_handler_not_found_witness :
    example_env.stat_ok (cstr example_ctx.base_path ++
      spec_path_portion (cstr (example_req "/nonexistent.file").uri)) = false ∧
    start_handler example_env (example_req "/nonexistent.file") example_world =
      some (esp_err_t.ESP_FAIL,
      { example_world with trace := example_world.trace ++
        [Event.stat "/spiffs/nonexistent.file".toList,
         Event.ESP_LOGE TAG "Failed to stat file : %s" "/spiffs/nonexistent.file".toList,
         Event.httpd_resp_send_err httpd_err_code_t.HTTPD_404_NOT_FOUND
           "File does not exist"] }) :=
  ⟨rfl,
   start_handler_not_found example_env (example_req "/nonexistent.file") example_ctx
    example_world rfl (by decide) (by decide) (Or.inl (by decide)) (by decide) (by decide)
    (by decide) (by decide) rfl⟩

/-- C7 as stated fails: with the three-byte stylesheet `a{}` embedded, the body
sent for `GET /style.css` is `a{`, not the whole embedded range. -/
theorem style_css_whole_range_counterexample :
    (start_handler example_env (example_req "/style.css") example_world).map
        (fun r => (r.1, emitted example_world r.2)) =
      some (esp_err_t.ESP_OK,
        [Event.stat "/spiffs/style.css".toList,
         Event.httpd_resp_set_type "text/css",
         Event.httpd_resp_send "a\x7b".toList]) ∧
    "a\x7b".toList ≠ example_env.style_css := by
  decide

/-- C7 amended: when the path portion is `/style.css` (whatever query or
fragment follows), the resolved path fits and `stat` fails, the handler sets
content type `text/css` and sends as body the embedded range without its last
byte, that is the `(style_css_end - 1) - style_css_start` bytes from
`style_css_start`, for a non-empty embedded range. -/
theorem start_handler_style_css (env : Env) (req : httpd_req_t) (ctx : file_server_data)
    (w : World)
    (h_ctx : req.user_ctx = some ctx)
    (h_mem : strlen ctx.base_path + strlen req.uri + 1 < SIZE_T)
    (h_fit : strlen ctx.base_path + (spec_path_portion (cstr req.uri)).length + 1
      ≤ FILE_PATH_MAX env)
    (h_css : spec_path_portion (cstr req.uri) = "/style.css".toList)
    (h_absent : env.stat_ok (cstr ctx.base_path ++ "/style.css".toList) = false)
    (h_ne : env.style_css ≠ [])
    (h_small : env.style_css.length < 2 ^ 31) :
    start_handler env req w = some (esp_err_t.ESP_OK,
      { w with trace := w.trace ++
        [Event.stat (cstr ctx.base_path ++ "/style.css".toList),
         Event.httpd_resp_set_type "text/css",
         Event.httpd_resp_send env.style_css.dropLast] }) := by
  have hl : (cstr ctx.base_path ++ spec_path_portion (cstr req.uri)).getLast? = some 's' := by
    rw [h_css, List.getLast?_append]
    rfl
  rw [start_handler_resolved env req ctx w 's' h_ctx h_mem h_fit hl, h_css]
  have hpos : 0 < env.style_css.length := List.length_pos.mpr h_ne
  have hlen : to_int32 (((env.style_css.length : Int) - 1) - 0)
      = ((env.style_css.length - 1 : Nat) : Int) := by
    unfold to_int32
    omega
  have hbody : resp_bytes (some env.style_css) (to_int32 (((env.style_css.length : Int) - 1) - 0))
      = env.style_css.dropLast := by
    rw [hlen, resp_bytes_some_nat, List.dropLast_eq_take]
  have hs : ('s' : Char) ≠ '/' := by decide
  have h1 : "/style.css".toList ≠ "/index_on.html".toList := by decide
  have h2 : "/style.css".toList ≠ "/index_off.html".toList := by decide
  unfold dispatch
  simp only [if_neg hs, h_absent, Bool.false_eq_true, if_false, if_neg h1, if_neg h2, if_true]
  unfold style_css_get_handler httpd_resp_send
  simp only [hbody]
  simp [World.emit]

/-- The request `GET /style.css?v=2` on an empty filesystem. -/
theorem start_handler_style_css_witness :
    spec_path_portion (cstr (example_req "/style.css?v=2").uri) = "/style.css".toList ∧
    start_handler example_env (example_req "/style.css?v=2") example_world =
      some (esp_err_t.ESP_OK,
      { example_world with trace := example_world.trace ++
        [Event.stat (cstr example_ctx.base_path ++ "/style.css".toList),
         Event.httpd_resp_set_type "text/css",
         Event.httpd_resp_send example_env.style_css.dropLast] }) :=
  ⟨by decide,
   start_handler_style_css example_env (example_req "/style.css?v=2") example_ctx
    example_world rfl (by decide) (by decide) (by decide) rfl (by decide) (by decide)⟩

/-- C10: when the resolved path fits and the path portion ends in `/`, the
handler calls `opendir` on the resolved path and nothing else of the
filesystem: if the directory cannot be opened it sends 404 "Directory does not
exist" and returns `ESP_FAIL`; otherwise it sends the opening chunk, the
embedded `index_off.html` bytes and the empty chunk, and returns `ESP_OK`. -/
theorem start_handler_directory (env : Env) (req : httpd_req_t) (ctx : file_server_data)
    (w : World)
    (h_ctx : req.user_ctx = some ctx)
    (h_mem : strlen ctx.base_path + strlen req.uri + 1 < SIZE_T)
    (h_fit : strlen ctx.base_path + (spec_path_portion (cstr req.uri)).length + 1
      ≤ FILE_PATH_MAX env)
    (h_slash : (spec_path_portion (cstr req.uri)).getLast? = some '/')
    (h_small : env.index_off_html.length < 2 ^ 31) :
    start_handler env req w = some
      (if env.opendir_ok (cstr ctx.base_path ++ spec_path_portion (cstr req.uri)) then
        (esp_err_t.ESP_OK, { w with trace := w.trace ++
          [Event.opendir (cstr ctx.base_path ++ spec_path_portion (cstr req.uri)),
           Event.httpd_resp_send_chunk HTML_OPEN,
           Event.httpd_resp_send_chunk env.index_off_html,
           Event.httpd_resp_send_chunk []] })
      else
        (esp_err_t.ESP_FAIL, { w with trace := w.trace ++
          [Event.opendir (cstr ctx.base_path ++ spec_path_portion (cstr req.uri)),
           Event.ESP_LOGE TAG "Failed to stat dir : %s"
             (cstr ctx.base_path ++ spec_path_portion (cstr req.uri)),
           Event.httpd_resp_send_err httpd_err_code_t.HTTPD_404_NOT_FOUND
             "Directory does not exist"] })) := by
  have hl : (cstr ctx.base_path ++ spec_path_portion (cstr req.uri)).getLast? = some '/' := by
    rw [List.getLast?_append, h_slash]
    rfl
  have hn1 : NUL ∉ cstr ctx.base_path ++ spec_path_portion (cstr req.uri) := by
    intro hm
    rcases List.mem_append.mp hm with hm | hm
    · exact NUL_not_mem_cstr _ hm
    · exact NUL_not_mem_spec_path_portion _ hm
  rw [start_handler_resolved env req ctx w '/' h_ctx h_mem h_fit hl]
  unfold dispatch
  rw [if_pos rfl, http_resp_dir_html_eq env req w _ h_small, cstr_of_not_mem _ hn1]

/-- The requests `GET /` (the root can be opened) and `GET /d/` (it cannot). -/
theorem start_handler_directory_witness :
    (start_handler example_env (example_req "/") example_world).map
        (fun r => (r.1, emitted example_world r.2)) =
      some (esp_err_t.ESP_OK,
        [Event.opendir "/spiffs/".toList,
         Event.httpd_resp_send_chunk HTML_OPEN,
         Event.httpd_resp_send_chunk "<h1>OFF</h1>".toList,
         Event.httpd_resp_send_chunk []]) ∧
    start_handler example_env (example_req "/d/?x") example_world = some
      (esp_err_t.ESP_FAIL, { example_world with trace := example_world.trace ++
          [Event.opendir "/spiffs/d/".toList,
           Event.ESP_LOGE TAG "Failed to stat dir : %s" "/spiffs/d/".toList,
           Event.httpd_resp_send_err httpd_err_code_t.HTTPD_404_NOT_FOUND
             "Directory does not exist"] }) :=
  ⟨by decide,
   start_handler_directory example_env (example_req "/d/?x") example_ctx example_world
    rfl (by decide) (by decide) (by decide) (by decide)⟩

/-- C8 at the failing input: for `GET /foo.txt` with the file present the
handler returns `ESP_OK` after the `stat` call alone; no response is sent. -/
theorem start_handler_file_present_sends_nothing :
    (start_handler example_env_with_file (example_req "/foo.txt") example_world).map
        (fun r => (r.1, emitted example_world r.2, responses_completed (emitted example_world r.2)))
      = some (esp_err_t.ESP_OK, [Event.stat "/spiffs/foo.txt".toList], 0) := by
  decide

/-! ## LED handlers: claims -/

theorem led_on_handler_eq (env : Env) (req : httpd_req_t) (w : World)
    (h_on : env.index_on_html.length < 2 ^ 31) :
    led_on_handler env req w = (esp_err_t.ESP_OK,
      { gpio := fun n => if n = BLINK_GPIO then 1 else w.gpio n,
        trace := w.trace ++
          [Event.httpd_resp_send_chunk HTML_OPEN,
           Event.httpd_resp_send_chunk env.index_on_html,
           Event.gpio_set_level BLINK_GPIO 1,
           Event.ESP_LOGE TAG "Led is ON" []] }) := by
  have hopen : cstr HTML_OPEN = HTML_OPEN := by decide
  have hmod : env.index_on_html.length % SIZE_T = env.index_on_html.length :=
    Nat.mod_eq_of_lt (by unfold SIZE_T; omega)
  simp [led_on_handler, httpd_resp_sendstr_chunk, httpd_resp_send_chunk, gpio_set_level,
    World.emit, resp_bytes_some_nat, resp_bytes_strlen, hopen, hmod,
    to_int32_of_small _ h_on]

theorem led_off_handler_eq (env : Env) (req : httpd_req_t) (w : World)
    (h_off : env.index_off_html.length < 2 ^ 31) :
    led_off_handler env req w = (esp_err_t.ESP_OK,
      { gpio := fun n => if n = BLINK_GPIO then 0 else w.gpio n,
        trace := w.trace ++
          [Event.httpd_resp_send_chunk HTML_OPEN,
           Event.httpd_resp_send_chunk env.index_off_html,
           Event.gpio_set_level BLINK_GPIO 0,
           Event.ESP_LOGE TAG "Led is OFF" []] }) := by
  have hopen : cstr HTML_OPEN = HTML_OPEN := by decide
  have hmod : env.index_off_html.length % SIZE_T = env.index_off_html.length :=
    Nat.mod_eq_of_lt (by unfold SIZE_T; omega)
  simp [led_off_handler, httpd_resp_sendstr_chunk, httpd_resp_send_chunk, gpio_set_level,
    World.emit, resp_bytes_some_nat, resp_bytes_strlen, hopen, hmod,
    to_int32_of_small _ h_off]

/-- C4 as stated fails: with the page `<h1>ON</h1>` embedded, the chunks sent by
`led_on_handler` concatenate to the opening tag followed by the page, which is
not the page. -/
theorem led_on_body_counterexample :
    chunked_body (emitted example_world
        (led_on_handler example_env (example_led_req "/on") example_world).2)
      = "<!DOCTYPE html><html><body><h1>ON</h1>".toList ∧
    chunked_body (emitted example_world
        (led_on_handler example_env (example_led_req "/on") example_world).2)
      ≠ example_env.index_on_html := by
  decide

/-- C4 amended: `led_on_handler` leaves GPIO 27 at level 1 and the chunks it sends
concatenate to the literal `<!DOCTYPE html><html><body>` followed by the
embedded `index_on.html` bytes; `led_off_handler` leaves GPIO 27 at level 0 and
sends that literal followed by the embedded `index_off.html` bytes. -/
theorem led_handlers_level_and_body (env : Env) (req : httpd_req_t) (w : World)
    (h_on : env.index_on_html.length < 2 ^ 31)
    (h_off : env.index_off_html.length < 2 ^ 31) :
    (led_on_handler env req w).2.gpio 27 = 1 ∧
    chunked_body (emitted w (led_on_handler env req w).2)
      = "<!DOCTYPE html><html><body>".toList ++ env.index_on_html ∧
    (led_off_handler env req w).2.gpio 27 = 0 ∧
    chunked_body (emitted w (led_off_handler env req w).2)
      = "<!DOCTYPE html><html><body>".toList ++ env.index_off_html := by
  rw [led_on_handler_eq env req w h_on, led_off_handler_eq env req w h_off]
  simp only [emitted_append]
  refine ⟨by simp [ BLINK_GPIO], ?_, by simp [ BLINK_GPIO], ?_⟩
  · simp [chunked_body, chunks_sent, HTML_OPEN]
  · simp [chunked_body, chunks_sent, HTML_OPEN]

/-- The requests `GET /on` and `GET /off` with small pages embedded. -/
theorem led_handlers_level_and_body_witness :
    example_env.index_on_html.length < 2 ^ 31 ∧
    example_env.index_off_html.length < 2 ^ 31 ∧
    (led_on_handler example_env (example_led_req "/on") example_world).2.gpio 27 = 1 ∧
    (led_off_handler example_env (example_led_req "/off") example_world).2.gpio 27 = 0 :=
  ⟨by decide, by decide,
   (led_handlers_level_and_body example_env (example_led_req "/on") example_world
     (by decide) (by decide)).1,
   (led_handlers_level_and_body example_env (example_led_req "/off") example_world
     (by decide) (by decide)).2.2.1⟩

/-- C5 at the failing input: for `GET /on` and `GET /off` each LED handler sends
two chunks, the opening tag and the page; no empty chunk follows, so the
chunked response is never completed. -/
theorem led_handlers_send_two_chunks :
    chunks_sent (emitted example_world
        (led_on_handler example_env (example_led_req "/on") example_world).2)
      = ["<!DOCTYPE html><html><body>".toList, "<h1>ON</h1>".toList] ∧
    chunks_sent (emitted example_world
        (led_off_handler example_env (example_led_req "/off") example_world).2)
      = ["<!DOCTYPE html><html><body>".toList, "<h1>OFF</h1>".toList] ∧
    responses_completed (emitted example_world
        (led_on_handler example_env (example_led_req "/on") example_world).2) = 0 ∧
    responses_completed (emitted example_world
        (led_off_handler example_env (example_led_req "/off") example_world).2) = 0 := by
  decide

/-! ## Server start: claims -/

theorem start_file_server_arg (env : Env) (base_path : Option (List Char)) (o : StartOracle)
    (s : ServerState) (h : is_spiffs base_path = false) :
    start_file_server env base_path o s = (esp_err_t.ESP_ERR_INVALID_ARG, s) := by
  have hlit : cstr "/spiffs".toList = "/spiffs".toList := by decide
  unfold start_file_server
  cases base_path with
  | none => simp
  | some b =>
    have hb : ¬ (strcmp b "/spiffs".toList = 0) := by
      rw [strcmp_eq_zero_iff, hlit]
      simpa [is_spiffs] using h
    simp only [Option.isNone_some, Option.getD_some, Bool.false_or, bne_iff_ne, ne_eq, hb,
      not_false_eq_true, if_true]

theorem start_file_server_started (env : Env) (base_path : Option (List Char))
    (o : StartOracle) (s : ServerState) (h : is_spiffs base_path = true)
    (hs : s.server_data.isSome = true) :
    start_file_server env base_path o s = (esp_err_t.ESP_ERR_INVALID_STATE, s) := by
  have hlit : cstr "/spiffs".toList = "/spiffs".toList := by decide
  unfold start_file_server
  cases base_path with
  | none => simp [is_spiffs] at h
  | some b =>
    have hb : strcmp b "/spiffs".toList = 0 := by
      rw [strcmp_eq_zero_iff, hlit]
      simpa [is_spiffs] using h
    simp only [Option.isNone_some, Option.getD_some, Bool.false_or, bne_iff_ne, ne_eq, hb,
      not_true_eq_false, if_false, hs, if_true]

theorem start_file_server_ok_started (env : Env) (base_path : Option (List Char))
    (o : StartOracle) (s s1 : ServerState)
    (h : start_file_server env base_path o s = (esp_err_t.ESP_OK, s1)) :
    s1.server_data.isSome = true := by
  unfold start_file_server at h
  split at h
  · simp at h
  · split at h
    · simp at h
    · split at h
      · simp at h
      · split at h
        · simp at h
        · simp only [Prod.mk.injEq, true_and] at h
          rw [← h]
          rfl

theorem start_file_server_alloc_inv (env : Env) (base_path : Option (List Char))
    (o : StartOracle) (s : ServerState) (h : alloc_inv s) :
    alloc_inv (start_file_server env base_path o s).2 := by
  unfold start_file_server
  split
  · exact h
  · split
    · exact h
    · rename_i hnone
      have h0 : s.contexts_allocated = 0 := h.2 (by simpa using hnone)
      split
      · exact ⟨h.1, fun _ => h0⟩
      · split
        · exact ⟨by simp [h0], by simp⟩
        · exact ⟨by simp [h0], by simp⟩

theorem start_calls_alloc_inv (env : Env) (calls : List (Option (List Char) × StartOracle))
    (s : ServerState) (h : alloc_inv s) : alloc_inv (start_calls env calls s).2 := by
  induction calls generalizing s with
  | nil => exact h
  | cons c rest ih =>
    obtain ⟨bp, o⟩ := c
    exact ih _ (start_file_server_alloc_inv env bp o s h)

theorem start_calls_started (env : Env) (calls : List (Option (List Char) × StartOracle))
    (s : ServerState) (hs : s.server_data.isSome = true) :
    start_calls env calls s =
      (calls.map (fun c => if is_spiffs c.1 then esp_err_t.ESP_ERR_INVALID_STATE
        else esp_err_t.ESP_ERR_INVALID_ARG), s) := by
  induction calls with
  | nil => rfl
  | cons c rest ih =>
    obtain ⟨bp, o⟩ := c
    by_cases hv : is_spiffs bp = true
    · simp [start_calls, start_file_server_started env bp o s hv hs, ih, hv]
    · have hv2 : is_spiffs bp = false := by simpa using hv
      simp [start_calls, start_file_server_arg env bp o s hv2, ih, hv2]

/-- C9 as stated fails: after a successful start, a call with base path `/sd`
returns `ESP_ERR_INVALID_ARG`, not `ESP_ERR_INVALID_STATE`. -/
theorem start_file_server_second_call_counterexample :
    (start_calls example_env
        [(some "/spiffs".toList, { calloc_ok := true, httpd_start_ok := true }),
         (some "/sd".toList, { calloc_ok := true, httpd_start_ok := true })]
        ServerState.boot).1
      = [esp_err_t.ESP_OK, esp_err_t.ESP_ERR_INVALID_ARG] ∧
    esp_err_t.ESP_ERR_INVALID_ARG ≠ esp_err_t.ESP_ERR_INVALID_STATE := by
  decide

/-- C9 amended: after a call of `start_file_server` that returned `ESP_OK`, every
later call returns `ESP_ERR_INVALID_STATE` when its argument is `/spiffs` and
`ESP_ERR_INVALID_ARG` otherwise (NULL included), and leaves the state, with its
one allocated context, unchanged; and over any sequence of calls from boot at
most one context is ever allocated. -/
theorem start_file_server_once (env : Env) (base_path : Option (List Char)) (o : StartOracle)
    (s s1 : ServerState)
    (h : start_file_server env base_path o s = (esp_err_t.ESP_OK, s1))
    (later : List (Option (List Char) × StartOracle)) :
    start_calls env later s1 =
      (later.map (fun c => if is_spiffs c.1 then esp_err_t.ESP_ERR_INVALID_STATE
        else esp_err_t.ESP_ERR_INVALID_ARG), s1) ∧
    s1.contexts_allocated = s.contexts_allocated + 1 ∧
    ∀ calls : List (Option (List Char) × StartOracle),
      (start_calls env calls ServerState.boot).2.contexts_allocated ≤ 1 := by
  refine ⟨start_calls_started env later s1 (start_file_server_ok_started env base_path o s s1 h),
    ?_, ?_⟩
  · unfold start_file_server at h
    split at h
    · simp at h
    · split at h
      · simp at h
      · split at h
        · simp at h
        · split at h
          · simp at h
          · simp only [Prod.mk.injEq, true_and] at h
            rw [← h]
  · intro calls
    exact (start_calls_alloc_inv env calls ServerState.boot ⟨by decide, fun _ => rfl⟩).1

/-- A start from boot followed by three more calls. -/
theorem start_file_server_once_witness :
    (start_file_server example_env (some "/spiffs".toList)
        { calloc_ok := true, httpd_start_ok := true } ServerState.boot).1 = esp_err_t.ESP_OK ∧
    (start_calls example_env
        [(some "/spiffs".toList, { calloc_ok := true, httpd_start_ok := true }),
         (none, { calloc_ok := true, httpd_start_ok := true }),
         (some "/sd".toList, { calloc_ok := false, httpd_start_ok := true })]
        (start_file_server example_env (some "/spiffs".toList)
          { calloc_ok := true, httpd_start_ok := true } ServerState.boot).2).1
      = [esp_err_t.ESP_ERR_INVALID_STATE, esp_err_t.ESP_ERR_INVALID_ARG,
         esp_err_t.ESP_ERR_INVALID_ARG] :=
  ⟨by decide,
   congrArg Prod.fst (start_file_server_once example_env (some "/spiffs".toList)
    { calloc_ok := true, httpd_start_ok := true } ServerState.boot
    (start_file_server example_env (some "/spiffs".toList)
      { calloc_ok := true, httpd_start_ok := true } ServerState.boot).2
    (by rfl)
    [(some "/spiffs".toList, { calloc_ok := true, httpd_start_ok := true }),
     (none, { calloc_ok := true, httpd_start_ok := true }),
     (some "/sd".toList, { calloc_ok := false, httpd_start_ok := true })]).1⟩

end LedServer
